import Mathlib

set_option linter.unusedVariables false

/-! Shallow embedding of the k6 Magento load-test script
(`src/k6-magento-load-test.js`) together with theorems checking its
natural-language specification against the code.  Pure control flow is
translated directly; HTTP responses, HTML extraction and `Math.random()`
draws enter as explicit parameters/oracles. -/

/-! ## String containment (JS `String.prototype.includes`) -/

/-- `charsStartWith big small` holds when `small` is an initial segment of `big`. -/
def charsStartWith : List Char → List Char → Bool
  | _, [] => true
  | [], _ :: _ => false
  | c :: cs, d :: ds => c = d && charsStartWith cs ds

/-- `charsContain big small` holds when `small` occurs contiguously inside `big`. -/
def charsContain : List Char → List Char → Bool
  | [], sub => sub.isEmpty
  | c :: cs, sub => charsStartWith (c :: cs) sub || charsContain cs sub

/-- JS `haystack.toLowerCase().includes(needle)`, with the lowering done
per character. -/
def strContainsLower (s sub : String) : Bool :=
  charsContain (s.toList.map Char.toLower) sub.toList

/-- `this.interests.some(interest => url.toLowerCase().includes(interest))`,
the interest test used by `calculateLinkPriority`, `extractLinksFromPage`
and `getNextUrl`. -/
def matchesInterest (url : String) (interests : List String) : Bool :=
  interests.any fun i => strContainsLower url i

/-! ## Uniform index draws (JS `Math.floor(Math.random() * n)`) -/

/-- `Math.floor(r * n)` for one draw `r` of `Math.random()`; used to pick a
uniform index into a pool of length `n`. -/
def randIndex (r : ℚ) (n : ℕ) : ℕ := (⌊r * (n : ℚ)⌋).toNat

theorem randIndex_lt (r : ℚ) (n : ℕ) (h0 : 0 ≤ r) (h1 : r < 1) (hn : 0 < n) :
    randIndex r n < n := by
  unfold randIndex
  have hfl : ⌊r * (n : ℚ)⌋ < (n : ℤ) := by
    apply Int.floor_lt.mpr
    push_cast
    calc r * n < 1 * n := by
          apply mul_lt_mul_of_pos_right h1
          exact_mod_cast hn
      _ = n := one_mul _
  omega

/-- Membership of the JS array pick `pool[Math.floor(Math.random() * pool.length)]`. -/
theorem getD_mem_of_lt {l : List String} {i : ℕ} (h : i < l.length) :
    l.getD i "" ∈ l := by
  rw [List.getD_eq_getElem l "" h]
  exact List.getElem_mem h

/-! ## Configuration resolver (`getConfig`) -/

/-- Values of the parsed YAML configuration document: the simple YAML parser
produces strings, numbers (`parseFloat`), booleans, arrays and nested
sections. -/
inductive ConfigValue where
  | str : String → ConfigValue
  | num : ℚ → ConfigValue
  | bool : Bool → ConfigValue
  | arr : List ConfigValue → ConfigValue
  | obj : List (String × ConfigValue) → ConfigValue

/-- JS `path.split('.')` on the character list, accumulating the current
segment in reverse. -/
def splitChars : List Char → List Char → List (List Char)
  | [], acc => [acc.reverse]
  | c :: cs, acc =>
      if c = '.' then acc.reverse :: splitChars cs [] else splitChars cs (c :: acc)

/-- JS `path.split('.')`. -/
def splitPath (path : String) : List String :=
  (splitChars path.toList []).map fun cs => String.mk cs

/-- The key walk of `getConfig(path, defaultValue)`: for each key, if the
current value is an object holding the key, descend; otherwise return the
default immediately. -/
def getConfigKeys : ConfigValue → List String → ConfigValue → ConfigValue
  | value, [], _ => value
  | ConfigValue.obj fields, key :: rest, dflt =>
      match fields.lookup key with
      | some v => getConfigKeys v rest dflt
      | none => dflt
  | _, _ :: _, dflt => dflt

/-- `getConfig(path, defaultValue)`: split the dotted path and walk the
parsed configuration document. -/
def getConfig (cfg : ConfigValue) (path : String) (dflt : ConfigValue) : ConfigValue :=
  getConfigKeys cfg (splitPath path) dflt

/-- Modelled from the spec wording for comparison with `getConfig`: the value
the external document stores at a dotted path, defined when the document
contains a value at every key along the path. -/
def storedAt : ConfigValue → List String → Option ConfigValue
  | v, [] => some v
  | ConfigValue.obj fields, key :: rest =>
      match fields.lookup key with
      | some v => storedAt v rest
      | none => none
  | _, _ :: _ => none

theorem getConfigKeys_eq_storedAt (keys : List String) :
    ∀ (cfg dflt : ConfigValue),
      getConfigKeys cfg keys dflt = (storedAt cfg keys).getD dflt := by
  induction keys with
  | nil => intro cfg dflt; cases cfg <;> rfl
  | cons k ks ih =>
      intro cfg dflt
      cases cfg with
      | obj fields =>
          simp only [getConfigKeys, storedAt]
          cases fields.lookup k with
          | none => rfl
          | some v => exact ih v dflt
      | str s => rfl
      | num q => rfl
      | bool b => rfl
      | arr l => rfl

/-- C8: for every dotted parameter path and default, if the parsed external
configuration document contains a value at every key along the path then
`getConfig` resolves to that stored value exactly, and if any key along the
path is absent (also when no document was loaded, i.e. the document is the
empty object) then `getConfig` resolves to the built-in default. -/
theorem getConfig_override_correct (cfg : ConfigValue) (path : String) (dflt : ConfigValue) :
    (∀ v, storedAt cfg (splitPath path) = some v → getConfig cfg path dflt = v) ∧
    (storedAt cfg (splitPath path) = none → getConfig cfg path dflt = dflt) := by
  constructor
  · intro v hv
    unfold getConfig
    rw [getConfigKeys_eq_storedAt, hv]
    rfl
  · intro hnone
    unfold getConfig
    rw [getConfigKeys_eq_storedAt, hnone]
    rfl

/-- Example document `{ loadTest: { virtualUsers: 10 } }` for the C8 witness. -/
def sampleConfigDoc : ConfigValue :=
  ConfigValue.obj [("loadTest", ConfigValue.obj [("virtualUsers", ConfigValue.num 10)])]

theorem getConfig_override_correct_witness :
    storedAt sampleConfigDoc (splitPath "loadTest.virtualUsers") = some (ConfigValue.num 10) ∧
    getConfig sampleConfigDoc "loadTest.virtualUsers" (ConfigValue.num 500) = ConfigValue.num 10 :=
  ⟨rfl, (getConfig_override_correct sampleConfigDoc "loadTest.virtualUsers"
      (ConfigValue.num 500)).1 (ConfigValue.num 10) rfl⟩

/-! ## Session agent data model (`RealUserSession`) -/

/-- One `{productId, qty, options}` cart line. -/
structure CartItem where
  productId : String
  qty : ℕ
  options : List (String × String)
deriving DecidableEq, Repr

/-- One entry of the agent's `navigationPath` log:
`{url, pageType, timestamp}` with the elapsed-time timestamp. -/
structure NavEntry where
  url : String
  pageType : String
  timestamp : ℕ
deriving DecidableEq, Repr

/-- The five candidate-link lists produced by `extractLinksFromPage`. -/
structure NewLinks where
  categories : List String
  products : List String
  pagination : List String
  related : List String
  breadcrumbs : List String
deriving DecidableEq, Repr

/-- The session state of `RealUserSession` read and written by the browsing
logic. -/
structure Agent where
  discoveredCategories : List String
  discoveredProducts : List String
  discoveredRelatedProducts : List String
  discoveredPagination : List String
  discoveredBreadcrumbs : List String
  visitedPages : List String
  navigationPath : List NavEntry
  cart : List CartItem
  interests : List String
  shoppingIntent : ℚ
  formKey : Option String
  currentContext : String
deriving DecidableEq, Repr

/-! ## Link priority (`calculateLinkPriority`) -/

/-- `calculateLinkPriority(url, linkType)`: base 0.1; plus 0.6 on an interest
match; plus one context bonus from the if/else-if chain (0.3 for a category
seen from the homepage, 0.4 for a product seen from a category, 0.2 for a
product seen from a product); plus `shoppingIntent * 0.3` for products;
clamped by `Math.min(priority, 1.0)`. -/
def calculateLinkPriority (a : Agent) (url : String) (linkType : String) : ℚ :=
  min
    ((if matchesInterest url a.interests then (1 : ℚ)/10 + 6/10 else (1 : ℚ)/10) +
      (if linkType = "category" ∧ a.currentContext = "homepage" then (3 : ℚ)/10
       else if linkType = "product" ∧ a.currentContext = "category" then (4 : ℚ)/10
       else if linkType = "product" ∧ a.currentContext = "product" then (2 : ℚ)/10
       else 0) +
      (if linkType = "product" then a.shoppingIntent * (3/10) else 0))
    1

/-- C4: `calculateLinkPriority` returns exactly
`min(1.0, 0.1 + 0.6*[interest match] + 0.3*[category from homepage]
+ 0.4*[product from category] + 0.2*[product from product]
+ shoppingIntent*0.3*[product])`. -/
theorem calculateLinkPriority_formula (a : Agent) (url linkType : String) :
    calculateLinkPriority a url linkType =
      min 1
        ((1 : ℚ)/10 +
          (if matchesInterest url a.interests then (6 : ℚ)/10 else 0) +
          (if linkType = "category" ∧ a.currentContext = "homepage" then (3 : ℚ)/10 else 0) +
          (if linkType = "product" ∧ a.currentContext = "category" then (4 : ℚ)/10 else 0) +
          (if linkType = "product" ∧ a.currentContext = "product" then (2 : ℚ)/10 else 0) +
          (if linkType = "product" then a.shoppingIntent * (3/10) else 0)) := by
  unfold calculateLinkPriority
  split_ifs with h1 h2 h3 h4 h5 h6 h7 <;>
    first
      | (rw [min_comm]; congr 1; ring1)
      | simp_all

/-- C5: with the context, shopping intent and link type fixed, a link matching
some agent interest scores strictly higher than one matching none; the clamp
at 1.0 never equalizes the two. -/
theorem calculateLinkPriority_interest_monotone (a : Agent) (u1 u2 linkType : String)
    (h1 : matchesInterest u1 a.interests = true)
    (h2 : matchesInterest u2 a.interests = false)
    (hs0 : 0 ≤ a.shoppingIntent) (hs1 : a.shoppingIntent ≤ 1) :
    calculateLinkPriority a u2 linkType < calculateLinkPriority a u1 linkType := by
  unfold calculateLinkPriority
  simp only [h1, h2, Bool.false_eq_true, if_true, if_false]
  split_ifs <;>
    (rw [min_eq_left (by linarith)]
     exact lt_min (by linarith) (by linarith))

/-- A freshly constructed session agent: the `RealUserSession` constructor
starts every pool, the visit history, the navigation log and the cart empty,
with no form key, in the `homepage` context. -/
def freshAgent (interests : List String) (shoppingIntent : ℚ) : Agent :=
  { discoveredCategories := []
    discoveredProducts := []
    discoveredRelatedProducts := []
    discoveredPagination := []
    discoveredBreadcrumbs := []
    visitedPages := []
    navigationPath := []
    cart := []
    interests := interests
    shoppingIntent := shoppingIntent
    formKey := none
    currentContext := "homepage" }

/-- Agent used by several witnesses: interested in `gear`, mid shopping
intent, currently on a category page. -/
def gearAgent : Agent :=
  { freshAgent ["gear"] 1 with currentContext := "category" }

theorem calculateLinkPriority_interest_monotone_witness :
    matchesInterest "/gear/bag.html" gearAgent.interests = true ∧
    matchesInterest "/women/tops.html" gearAgent.interests = false ∧
    0 ≤ gearAgent.shoppingIntent ∧ gearAgent.shoppingIntent ≤ 1 ∧
    calculateLinkPriority gearAgent "/women/tops.html" "product" <
      calculateLinkPriority gearAgent "/gear/bag.html" "product" :=
  ⟨by decide, by decide, by decide, by decide,
    calculateLinkPriority_interest_monotone gearAgent "/gear/bag.html" "/women/tops.html"
      "product" (by decide) (by decide) (by decide) (by decide)⟩

/-! ## Discovery folding (`updateSessionDiscovery`) and page visits (`visitPage`) -/

/-- `updateSessionDiscovery` loop body for `newLinks.categories`: append a new
category only when its priority exceeds 0.3. -/
def addCategoryStep (ag : Agent) (cat : String) : Agent :=
  if cat ∉ ag.discoveredCategories ∧ calculateLinkPriority ag cat "category" > 3/10 then
    { ag with discoveredCategories := ag.discoveredCategories ++ [cat] }
  else ag

/-- `updateSessionDiscovery` loop body for `newLinks.products`: append a new
product only when its priority exceeds 0.2. -/
def addProductStep (ag : Agent) (prod : String) : Agent :=
  if prod ∉ ag.discoveredProducts ∧ calculateLinkPriority ag prod "product" > 2/10 then
    { ag with discoveredProducts := ag.discoveredProducts ++ [prod] }
  else ag

/-- `updateSessionDiscovery` loop body for `newLinks.related`: appended
unconditionally when new. -/
def addRelatedStep (ag : Agent) (rel : String) : Agent :=
  if rel ∉ ag.discoveredRelatedProducts then
    { ag with discoveredRelatedProducts := ag.discoveredRelatedProducts ++ [rel] }
  else ag

/-- `updateSessionDiscovery` loop body for `newLinks.pagination`. -/
def addPaginationStep (ag : Agent) (page : String) : Agent :=
  if page ∉ ag.discoveredPagination then
    { ag with discoveredPagination := ag.discoveredPagination ++ [page] }
  else ag

/-- `updateSessionDiscovery` loop body for `newLinks.breadcrumbs`. -/
def addBreadcrumbStep (ag : Agent) (breadcrumb : String) : Agent :=
  if breadcrumb ∉ ag.discoveredBreadcrumbs then
    { ag with discoveredBreadcrumbs := ag.discoveredBreadcrumbs ++ [breadcrumb] }
  else ag

/-- `updateSessionDiscovery(newLinks, pageType)`: fold the five extracted
link lists into the agent's discovered pools (categories, then products,
then related, then pagination, then breadcrumbs). -/
def updateSessionDiscovery (a : Agent) (nl : NewLinks) (pageType : String) : Agent :=
  nl.breadcrumbs.foldl addBreadcrumbStep
    (nl.pagination.foldl addPaginationStep
      (nl.related.foldl addRelatedStep
        (nl.products.foldl addProductStep
          (nl.categories.foldl addCategoryStep a))))

theorem foldl_addCategoryStep_visited (l : List String) :
    ∀ ag : Agent, (l.foldl addCategoryStep ag).visitedPages = ag.visitedPages := by
  induction l with
  | nil => intro ag; rfl
  | cons x xs ih =>
      intro ag
      rw [List.foldl_cons, ih]
      unfold addCategoryStep
      split <;> rfl

theorem foldl_addProductStep_visited (l : List String) :
    ∀ ag : Agent, (l.foldl addProductStep ag).visitedPages = ag.visitedPages := by
  induction l with
  | nil => intro ag; rfl
  | cons x xs ih =>
      intro ag
      rw [List.foldl_cons, ih]
      unfold addProductStep
      split <;> rfl

theorem foldl_addRelatedStep_visited (l : List String) :
    ∀ ag : Agent, (l.foldl addRelatedStep ag).visitedPages = ag.visitedPages := by
  induction l with
  | nil => intro ag; rfl
  | cons x xs ih =>
      intro ag
      rw [List.foldl_cons, ih]
      unfold addRelatedStep
      split <;> rfl

theorem foldl_addPaginationStep_visited (l : List String) :
    ∀ ag : Agent, (l.foldl addPaginationStep ag).visitedPages = ag.visitedPages := by
  induction l with
  | nil => intro ag; rfl
  | cons x xs ih =>
      intro ag
      rw [List.foldl_cons, ih]
      unfold addPaginationStep
      split <;> rfl

theorem foldl_addBreadcrumbStep_visited (l : List String) :
    ∀ ag : Agent, (l.foldl addBreadcrumbStep ag).visitedPages = ag.visitedPages := by
  induction l with
  | nil => intro ag; rfl
  | cons x xs ih =>
      intro ag
      rw [List.foldl_cons, ih]
      unfold addBreadcrumbStep
      split <;> rfl

theorem updateSessionDiscovery_visitedPages (a : Agent) (nl : NewLinks) (pt : String) :
    (updateSessionDiscovery a nl pt).visitedPages = a.visitedPages := by
  unfold updateSessionDiscovery
  rw [foldl_addBreadcrumbStep_visited, foldl_addPaginationStep_visited,
    foldl_addRelatedStep_visited, foldl_addProductStep_visited,
    foldl_addCategoryStep_visited]

/-- Outcome of one `http.get` plus the HTML-dependent extraction results
(`extractFormKey(res.body)` and `extractLinksFromPage(res)`), supplied as an
oracle: the HTTP layer, the regexes and the DOM queries live outside the
embedded session logic. -/
structure PageOracle where
  status : ℕ
  formKeyFound : Option String
  links : NewLinks
deriving DecidableEq, Repr

/-- The `{res, success, newLinks}` object returned by `visitPage`, with the
response represented by its status. -/
structure VisitResult where
  status : ℕ
  success : Bool
  newLinks : NewLinks
deriving DecidableEq, Repr

/-- The all-empty `newLinks` object returned on a failed fetch. -/
def emptyNewLinks : NewLinks :=
  { categories := [], products := [], pagination := [], related := [], breadcrumbs := [] }

/-- `visitPage(url, pageType)`: return the skip sentinel (`null`, modelled as
`none`) without fetching when the URL was already visited; otherwise log the
attempt, set `currentContext`, fetch, and on a 2xx/3xx status mark the URL
visited, capture the form key when not already held, and fold the extracted
links into the discovered pools; on any other status return
`success = false` with empty `newLinks` and no discovery/visit mutation. -/
def visitPage (a : Agent) (url pageType : String) (o : PageOracle) (now : ℕ) :
    Option VisitResult × Agent :=
  if url ∈ a.visitedPages then (none, a)
  else if 200 ≤ o.status ∧ o.status < 400 then
    (some { status := o.status, success := true, newLinks := o.links },
      updateSessionDiscovery
        (if a.formKey = none then
          { a with navigationPath := a.navigationPath ++ [⟨url, pageType, now⟩],
                   currentContext := pageType,
                   visitedPages := a.visitedPages ++ [url],
                   formKey := o.formKeyFound }
         else
          { a with navigationPath := a.navigationPath ++ [⟨url, pageType, now⟩],
                   currentContext := pageType,
                   visitedPages := a.visitedPages ++ [url] })
        o.links pageType)
  else
    (some { status := o.status, success := false, newLinks := emptyNewLinks },
      { a with navigationPath := a.navigationPath ++ [⟨url, pageType, now⟩],
               currentContext := pageType })

/-- One element of a call sequence against `visitPage`. -/
structure VisitCall where
  url : String
  pageType : String
  oracle : PageOracle
  now : ℕ
deriving DecidableEq, Repr

/-- A sequence of `visitPage` calls on one session agent. -/
def runVisits : Agent → List VisitCall → Agent
  | a, [] => a
  | a, c :: rest => runVisits (visitPage a c.url c.pageType c.oracle c.now).2 rest

theorem visitPage_visitedPages (a : Agent) (url pt : String) (o : PageOracle) (n : ℕ) :
    (visitPage a url pt o n).2.visitedPages =
      if url ∉ a.visitedPages ∧ 200 ≤ o.status ∧ o.status < 400
      then a.visitedPages ++ [url] else a.visitedPages := by
  unfold visitPage
  by_cases hv : url ∈ a.visitedPages
  · rw [if_pos hv, if_neg (by simp [hv])]
  · rw [if_neg hv]
    by_cases hs : 200 ≤ o.status ∧ o.status < 400
    · rw [if_pos hs,
        if_pos (show url ∉ a.visitedPages ∧ 200 ≤ o.status ∧ o.status < 400 from ⟨hv, hs⟩)]
      simp only [updateSessionDiscovery_visitedPages]
      split <;> rfl
    · rw [if_neg hs, if_neg (by tauto)]

theorem visitPage_nodup (a : Agent) (c : VisitCall) (h : a.visitedPages.Nodup) :
    ((visitPage a c.url c.pageType c.oracle c.now).2.visitedPages).Nodup := by
  rw [visitPage_visitedPages]
  split
  case isTrue hc =>
    rw [List.nodup_append]
    refine ⟨h, List.nodup_singleton _, ?_⟩
    intro x hx hx1
    rw [List.mem_singleton] at hx1
    exact hc.1 (hx1 ▸ hx)
  case isFalse _ => exact h

theorem runVisits_nodup (calls : List VisitCall) :
    ∀ a : Agent, a.visitedPages.Nodup → ((runVisits a calls).visitedPages).Nodup := by
  induction calls with
  | nil => intro a h; exact h
  | cons c rest ih =>
      intro a h
      exact ih _ (visitPage_nodup a c h)

/-- C2: a `visitPage` call on an already-visited URL returns the skip
sentinel with the state untouched, independently of the fetch outcome; a URL
is appended to `visitedPages` exactly when it was not yet present and the
response status is 2xx/3xx; and along every sequence of `visitPage` calls
starting from duplicate-free visit history, `visitedPages` stays
duplicate-free (so no URL is successfully fetched twice in one session). -/
theorem visitPage_single_visit_invariant (a : Agent) (url pt : String) (o : PageOracle)
    (n : ℕ) (calls : List VisitCall) (hnd : a.visitedPages.Nodup) :
    (url ∈ a.visitedPages → visitPage a url pt o n = (none, a)) ∧
    ((visitPage a url pt o n).2.visitedPages =
      if url ∉ a.visitedPages ∧ 200 ≤ o.status ∧ o.status < 400
      then a.visitedPages ++ [url] else a.visitedPages) ∧
    ((runVisits a calls).visitedPages).Nodup := by
  refine ⟨?_, visitPage_visitedPages a url pt o n, runVisits_nodup calls a hnd⟩
  intro hv
  unfold visitPage
  rw [if_pos hv]

/-- Oracle for witnesses: HTTP 200, a form key, one related link. -/
def okOracle : PageOracle :=
  { status := 200, formKeyFound := some "fk1",
    links := { categories := [], products := [], pagination := [],
               related := ["/p1.html"], breadcrumbs := [] } }

theorem visitPage_single_visit_invariant_witness :
    gearAgent.visitedPages.Nodup ∧
    ("/a.html" ∈ gearAgent.visitedPages →
      visitPage gearAgent "/a.html" "category" okOracle 3 = (none, gearAgent)) ∧
    ((visitPage gearAgent "/a.html" "category" okOracle 3).2.visitedPages =
      if "/a.html" ∉ gearAgent.visitedPages ∧ 200 ≤ okOracle.status ∧ okOracle.status < 400
      then gearAgent.visitedPages ++ ["/a.html"] else gearAgent.visitedPages) ∧
    ((runVisits gearAgent [⟨"/a.html", "category", okOracle, 3⟩]).visitedPages).Nodup :=
  ⟨by decide,
    visitPage_single_visit_invariant gearAgent "/a.html" "category" okOracle 3
      [⟨"/a.html", "category", okOracle, 3⟩] (by decide)⟩

/-- C6: when the fetch inside `visitPage` returns a status outside 200–399,
the call returns `success = false` with all five `newLinks` lists empty, and
the five discovered pools, `visitedPages`, `formKey` and `cart` are exactly
those of the agent before the call; only the navigation-path log gains the
attempt entry and `currentContext` becomes the requested page type. -/
theorem visitPage_failure_frame (a : Agent) (url pt : String) (o : PageOracle) (n : ℕ)
    (hnv : url ∉ a.visitedPages) (hfail : ¬(200 ≤ o.status ∧ o.status < 400)) :
    (visitPage a url pt o n).1 =
      some { status := o.status, success := false, newLinks := emptyNewLinks } ∧
    (visitPage a url pt o n).2.discoveredCategories = a.discoveredCategories ∧
    (visitPage a url pt o n).2.discoveredProducts = a.discoveredProducts ∧
    (visitPage a url pt o n).2.discoveredRelatedProducts = a.discoveredRelatedProducts ∧
    (visitPage a url pt o n).2.discoveredPagination = a.discoveredPagination ∧
    (visitPage a url pt o n).2.discoveredBreadcrumbs = a.discoveredBreadcrumbs ∧
    (visitPage a url pt o n).2.visitedPages = a.visitedPages ∧
    (visitPage a url pt o n).2.formKey = a.formKey ∧
    (visitPage a url pt o n).2.cart = a.cart ∧
    (visitPage a url pt o n).2.currentContext = pt ∧
    (visitPage a url pt o n).2.navigationPath = a.navigationPath ++ [⟨url, pt, n⟩] := by
  unfold visitPage
  rw [if_neg hnv, if_neg hfail]
  exact ⟨rfl, rfl, rfl, rfl, rfl, rfl, rfl, rfl, rfl, rfl, rfl⟩

/-- Oracle for the C6 witness: an HTTP 500 response. -/
def failOracle : PageOracle :=
  { status := 500, formKeyFound := none,
    links := { categories := ["/c.html"], products := [], pagination := [],
               related := [], breadcrumbs := [] } }

theorem visitPage_failure_frame_witness :
    "/p.html" ∉ gearAgent.visitedPages ∧
    ¬(200 ≤ failOracle.status ∧ failOracle.status < 400) ∧
    ((visitPage gearAgent "/p.html" "product" failOracle 7).1 =
        some { status := failOracle.status, success := false, newLinks := emptyNewLinks } ∧
      (visitPage gearAgent "/p.html" "product" failOracle 7).2.discoveredCategories =
        gearAgent.discoveredCategories ∧
      (visitPage gearAgent "/p.html" "product" failOracle 7).2.discoveredProducts =
        gearAgent.discoveredProducts ∧
      (visitPage gearAgent "/p.html" "product" failOracle 7).2.discoveredRelatedProducts =
        gearAgent.discoveredRelatedProducts ∧
      (visitPage gearAgent "/p.html" "product" failOracle 7).2.discoveredPagination =
        gearAgent.discoveredPagination ∧
      (visitPage gearAgent "/p.html" "product" failOracle 7).2.discoveredBreadcrumbs =
        gearAgent.discoveredBreadcrumbs ∧
      (visitPage gearAgent "/p.html" "product" failOracle 7).2.visitedPages =
        gearAgent.visitedPages ∧
      (visitPage gearAgent "/p.html" "product" failOracle 7).2.formKey = gearAgent.formKey ∧
      (visitPage gearAgent "/p.html" "product" failOracle 7).2.cart = gearAgent.cart ∧
      (visitPage gearAgent "/p.html" "product" failOracle 7).2.currentContext = "product" ∧
      (visitPage gearAgent "/p.html" "product" failOracle 7).2.navigationPath =
        gearAgent.navigationPath ++ [⟨"/p.html", "product", 7⟩]) :=
  ⟨by decide, by decide,
    visitPage_failure_frame gearAgent "/p.html" "product" failOracle 7
      (by decide) (by decide)⟩

/-! ## Next-URL decision engine (`getNextUrl`) -/

/-- The configured browsing-pattern follow rates consumed by `getNextUrl`
(`RELATED_PRODUCT_FOLLOW_RATE`, `PAGINATION_FOLLOW_RATE`,
`BREADCRUMB_FOLLOW_RATE`, `INTEREST_MATCH_FOLLOW_RATE`). -/
structure Rates where
  relatedRate : ℚ
  paginationRate : ℚ
  breadcrumbRate : ℚ
  interestRate : ℚ
deriving DecidableEq, Repr

/-- The `Math.random()` draws a single `getNextUrl` call can consume: the
band decision, the per-pool index draws, the catalog split and the
interest-follow draw. -/
structure Draws where
  decision : ℚ
  relIdx : ℚ
  pagIdx : ℚ
  bcIdx : ℚ
  catalogPriority : ℚ
  interestFollow : ℚ
  catIdx : ℚ
  prodIdx : ℚ
deriving DecidableEq, Repr

/-- `this.discoveredCategories.filter(cat => this.interests.some(...))`. -/
def interestedCategories (a : Agent) : List String :=
  a.discoveredCategories.filter fun cat => matchesInterest cat a.interests

/-- The category pool picked inside `getNextUrl`: the interest-matching
subset when it is non-empty and the interest-follow draw is below
`INTEREST_MATCH_FOLLOW_RATE`, else the whole discovered category pool. -/
def categoryPool (a : Agent) (r : Rates) (d : Draws) : List String :=
  if 0 < (interestedCategories a).length ∧ d.interestFollow < r.interestRate then
    interestedCategories a
  else a.discoveredCategories

/-- `getNextUrl()`: draw `decision` once and test the cumulative bands in
order (related product, pagination in a category/pagination context,
breadcrumb); otherwise split catalog traffic 85/15 between categories and
products; return `null` when the reached pool is empty. The method reads the
agent state and never writes it, so it returns the unchanged agent. -/
def getNextUrl (a : Agent) (r : Rates) (d : Draws) : Option (String × String) × Agent :=
  (if d.decision < r.relatedRate ∧ 0 < a.discoveredRelatedProducts.length then
    some (a.discoveredRelatedProducts.getD
        (randIndex d.relIdx a.discoveredRelatedProducts.length) "", "related_product")
   else if d.decision < r.relatedRate + r.paginationRate ∧
       (a.currentContext = "category" ∨ a.currentContext = "pagination") ∧
       0 < a.discoveredPagination.length then
    some (a.discoveredPagination.getD
        (randIndex d.pagIdx a.discoveredPagination.length) "", "pagination")
   else if d.decision < r.relatedRate + r.paginationRate + r.breadcrumbRate ∧
       0 < a.discoveredBreadcrumbs.length then
    some (a.discoveredBreadcrumbs.getD
        (randIndex d.bcIdx a.discoveredBreadcrumbs.length) "", "breadcrumb")
   else if d.catalogPriority < 85/100 ∧ 0 < a.discoveredCategories.length then
    some ((categoryPool a r d).getD
        (randIndex d.catIdx (categoryPool a r d).length) "", "category")
   else if 0 < a.discoveredProducts.length then
    some (a.discoveredProducts.getD
        (randIndex d.prodIdx a.discoveredProducts.length) "", "product")
   else none, a)

/-- C3: `getNextUrl` draws one value and tests the bands in the fixed order
related-product, pagination, breadcrumb, each band taken exactly when the
draw is below the cumulative rate, the band-specific context condition holds
and the corresponding pool is non-empty, with earlier bands taking priority;
inside a band the returned URL is the pool entry at the uniform index draw. -/
theorem getNextUrl_band_priority (a : Agent) (r : Rates) (d : Draws) :
    ((Prod.snd <$> (getNextUrl a r d).1 = some "related_product") ↔
      (d.decision < r.relatedRate ∧ 0 < a.discoveredRelatedProducts.length)) ∧
    ((Prod.snd <$> (getNextUrl a r d).1 = some "pagination") ↔
      (¬(d.decision < r.relatedRate ∧ 0 < a.discoveredRelatedProducts.length) ∧
        (d.decision < r.relatedRate + r.paginationRate ∧
          (a.currentContext = "category" ∨ a.currentContext = "pagination") ∧
          0 < a.discoveredPagination.length))) ∧
    ((Prod.snd <$> (getNextUrl a r d).1 = some "breadcrumb") ↔
      (¬(d.decision < r.relatedRate ∧ 0 < a.discoveredRelatedProducts.length) ∧
        ¬(d.decision < r.relatedRate + r.paginationRate ∧
          (a.currentContext = "category" ∨ a.currentContext = "pagination") ∧
          0 < a.discoveredPagination.length) ∧
        (d.decision < r.relatedRate + r.paginationRate + r.breadcrumbRate ∧
          0 < a.discoveredBreadcrumbs.length))) ∧
    ((d.decision < r.relatedRate ∧ 0 < a.discoveredRelatedProducts.length) →
      (getNextUrl a r d).1 =
        some (a.discoveredRelatedProducts.getD
          (randIndex d.relIdx a.discoveredRelatedProducts.length) "", "related_product")) ∧
    ((¬(d.decision < r.relatedRate ∧ 0 < a.discoveredRelatedProducts.length) ∧
        (d.decision < r.relatedRate + r.paginationRate ∧
          (a.currentContext = "category" ∨ a.currentContext = "pagination") ∧
          0 < a.discoveredPagination.length)) →
      (getNextUrl a r d).1 =
        some (a.discoveredPagination.getD
          (randIndex d.pagIdx a.discoveredPagination.length) "", "pagination")) ∧
    ((¬(d.decision < r.relatedRate ∧ 0 < a.discoveredRelatedProducts.length) ∧
        ¬(d.decision < r.relatedRate + r.paginationRate ∧
          (a.currentContext = "category" ∨ a.currentContext = "pagination") ∧
          0 < a.discoveredPagination.length) ∧
        (d.decision < r.relatedRate + r.paginationRate + r.breadcrumbRate ∧
          0 < a.discoveredBreadcrumbs.length)) →
      (getNextUrl a r d).1 =
        some (a.discoveredBreadcrumbs.getD
          (randIndex d.bcIdx a.discoveredBreadcrumbs.length) "", "breadcrumb")) := by
  unfold getNextUrl
  split_ifs with h1 h2 h3 h4 h5 <;> simp_all

/-- Rates used by the C3 witness: the whole band mass on related products. -/
def bandRates : Rates :=
  { relatedRate := 1, paginationRate := 0, breadcrumbRate := 0, interestRate := 0 }

/-- All-zero draws for witnesses. -/
def zeroDraws : Draws :=
  { decision := 0, relIdx := 0, pagIdx := 0, bcIdx := 0,
    catalogPriority := 0, interestFollow := 0, catIdx := 0, prodIdx := 0 }

/-- Agent with two discovered related products, for witnesses. -/
def relAgent : Agent :=
  { gearAgent with discoveredRelatedProducts := ["/r1.html", "/r2.html"] }

theorem getNextUrl_band_priority_witness :
    (zeroDraws.decision < bandRates.relatedRate ∧
      0 < relAgent.discoveredRelatedProducts.length) ∧
    (getNextUrl relAgent bandRates zeroDraws).1 =
      some (relAgent.discoveredRelatedProducts.getD
        (randIndex zeroDraws.relIdx relAgent.discoveredRelatedProducts.length) "",
        "related_product") :=
  ⟨⟨by decide, by decide⟩,
    (getNextUrl_band_priority relAgent bandRates zeroDraws).2.2.2.1 ⟨by decide, by decide⟩⟩

/-- C10: `getNextUrl` is read-only on the session agent, and whenever it
returns a URL, that URL is an element of the discovered pool matching the
returned navigation type (the category pool possibly narrowed to the
interest-matching subset, which is part of `discoveredCategories`). -/
theorem getNextUrl_readonly_membership (a : Agent) (r : Rates) (d : Draws)
    (hrel0 : 0 ≤ d.relIdx) (hrel1 : d.relIdx < 1)
    (hpag0 : 0 ≤ d.pagIdx) (hpag1 : d.pagIdx < 1)
    (hbc0 : 0 ≤ d.bcIdx) (hbc1 : d.bcIdx < 1)
    (hcat0 : 0 ≤ d.catIdx) (hcat1 : d.catIdx < 1)
    (hprod0 : 0 ≤ d.prodIdx) (hprod1 : d.prodIdx < 1) :
    (getNextUrl a r d).2 = a ∧
    (∀ u t, (getNextUrl a r d).1 = some (u, t) →
      (t = "related_product" ∧ u ∈ a.discoveredRelatedProducts) ∨
      (t = "pagination" ∧ u ∈ a.discoveredPagination) ∨
      (t = "breadcrumb" ∧ u ∈ a.discoveredBreadcrumbs) ∨
      (t = "category" ∧ u ∈ a.discoveredCategories) ∨
      (t = "product" ∧ u ∈ a.discoveredProducts)) := by
  refine ⟨rfl, ?_⟩
  intro u t h
  unfold getNextUrl at h
  split_ifs at h with h1 h2 h3 h4 h5
  · obtain ⟨hu, ht⟩ := Prod.mk.inj (Option.some.inj h)
    left
    exact ⟨ht.symm, hu ▸ getD_mem_of_lt (randIndex_lt d.relIdx _ hrel0 hrel1 h1.2)⟩
  · obtain ⟨hu, ht⟩ := Prod.mk.inj (Option.some.inj h)
    right; left
    exact ⟨ht.symm, hu ▸ getD_mem_of_lt (randIndex_lt d.pagIdx _ hpag0 hpag1 h2.2.2)⟩
  · obtain ⟨hu, ht⟩ := Prod.mk.inj (Option.some.inj h)
    right; right; left
    exact ⟨ht.symm, hu ▸ getD_mem_of_lt (randIndex_lt d.bcIdx _ hbc0 hbc1 h3.2)⟩
  · obtain ⟨hu, ht⟩ := Prod.mk.inj (Option.some.inj h)
    right; right; right; left
    refine ⟨ht.symm, ?_⟩
    have hpool : 0 < (categoryPool a r d).length := by
      unfold categoryPool
      split
      case isTrue hc => exact hc.1
      case isFalse _ => exact h4.2
    have hmem : (categoryPool a r d).getD (randIndex d.catIdx (categoryPool a r d).length) ""
        ∈ categoryPool a r d :=
      getD_mem_of_lt (randIndex_lt d.catIdx _ hcat0 hcat1 hpool)
    have hsub : categoryPool a r d ⊆ a.discoveredCategories := by
      unfold categoryPool
      split
      case isTrue _ => exact fun x hx => List.mem_of_mem_filter hx
      case isFalse _ => exact fun x hx => hx
    exact hu ▸ hsub hmem
  · obtain ⟨hu, ht⟩ := Prod.mk.inj (Option.some.inj h)
    right; right; right; right
    exact ⟨ht.symm, hu ▸ getD_mem_of_lt (randIndex_lt d.prodIdx _ hprod0 hprod1 h5)⟩

theorem getNextUrl_readonly_membership_witness :
    ((0:ℚ) ≤ zeroDraws.relIdx ∧ zeroDraws.relIdx < 1) ∧
    (getNextUrl relAgent bandRates zeroDraws).2 = relAgent ∧
    (∀ u t, (getNextUrl relAgent bandRates zeroDraws).1 = some (u, t) →
      (t = "related_product" ∧ u ∈ relAgent.discoveredRelatedProducts) ∨
      (t = "pagination" ∧ u ∈ relAgent.discoveredPagination) ∨
      (t = "breadcrumb" ∧ u ∈ relAgent.discoveredBreadcrumbs) ∨
      (t = "category" ∧ u ∈ relAgent.discoveredCategories) ∨
      (t = "product" ∧ u ∈ relAgent.discoveredProducts)) :=
  ⟨⟨by decide, by decide⟩,
    getNextUrl_readonly_membership relAgent bandRates zeroDraws
      (by decide) (by decide) (by decide) (by decide) (by decide)
      (by decide) (by decide) (by decide) (by decide) (by decide)⟩

/-! ## Cart operations (`addToCart` and its call-site guard) -/

/-- Built-in default of `ecommerceFlow.maxProductsInCart`. -/
def MAX_PRODUCTS_IN_CART : ℕ := 5

/-- The quantity draw
`Math.floor(Math.random() * (ADD_TO_CART_MAX_QTY - ADD_TO_CART_MIN_QTY + 1)) + ADD_TO_CART_MIN_QTY`. -/
def drawQty (minQ maxQ : ℕ) (r : ℚ) : ℕ := randIndex r (maxQ - minQ + 1) + minQ

/-- `addToCart(productId, availableOptions)`: return `false` when no form key
was captured or `productId` is null; otherwise POST (outcome `httpOk` is the
2xx/3xx status check) and on success append `{productId, qty, options}` to
the cart.  The method performs no cart-size check of its own. -/
def addToCart (a : Agent) (productId : Option String)
    (availableOptions : List (String × String)) (qtyDraw : ℚ) (minQ maxQ : ℕ)
    (httpOk : Bool) : Bool × Agent :=
  match a.formKey, productId with
  | some _, some pid =>
      if httpOk then
        (true, { a with cart := a.cart ++ [⟨pid, drawQty minQ maxQ qtyDraw, availableOptions⟩] })
      else (false, a)
  | _, _ => (false, a)

/-- Agent whose cart already holds `MAX_PRODUCTS_IN_CART` items, with a
captured form token. -/
def fullCartAgent : Agent :=
  { freshAgent ["gear"] 1 with
    formKey := some "formkey123",
    cart := [⟨"1", 1, []⟩, ⟨"2", 1, []⟩, ⟨"3", 1, []⟩, ⟨"4", 1, []⟩, ⟨"5", 1, []⟩] }

/-- C1 counterexample: with the cart already at `MAX_PRODUCTS_IN_CART`, a
captured form token, a non-null product id and a successful POST, `addToCart`
returns `true` and grows the cart to `MAX_PRODUCTS_IN_CART + 1` — it does not
refuse the call, because the size check lives only at the call sites. -/
theorem addToCart_full_cart_not_refused :
    fullCartAgent.cart.length = MAX_PRODUCTS_IN_CART ∧
    fullCartAgent.formKey = some "formkey123" ∧
    (addToCart fullCartAgent (some "99") [] 0 1 3 true).1 = true ∧
    (addToCart fullCartAgent (some "99") [] 0 1 3 true).2.cart.length =
      MAX_PRODUCTS_IN_CART + 1 :=
  ⟨rfl, rfl, rfl, rfl⟩

/-- The guarded add-to-cart attempt as issued by `realUserBrowsingSession`:
`Math.random() < Math.min(addToCartChance, 0.9) && productId &&
user.cart.length < MAX_PRODUCTS_IN_CART`, and only then `addToCart`. -/
def guardedAddToCart (a : Agent) (maxCart : ℕ) (chanceDraw addChance : ℚ)
    (productId : Option String) (availableOptions : List (String × String))
    (qtyDraw : ℚ) (minQ maxQ : ℕ) (httpOk : Bool) : Bool × Agent :=
  if chanceDraw < min addChance (9/10) ∧ productId ≠ none ∧ a.cart.length < maxCart then
    addToCart a productId availableOptions qtyDraw minQ maxQ httpOk
  else (false, a)

/-- One element of a sequence of guarded add-to-cart attempts. -/
structure AddCall where
  chanceDraw : ℚ
  addChance : ℚ
  productId : Option String
  options : List (String × String)
  qtyDraw : ℚ
  minQ : ℕ
  maxQ : ℕ
  httpOk : Bool
deriving DecidableEq, Repr

/-- A sequence of guarded add-to-cart attempts on one agent. -/
def runGuardedAdds (maxCart : ℕ) : Agent → List AddCall → Agent
  | a, [] => a
  | a, c :: rest =>
      runGuardedAdds maxCart
        (guardedAddToCart a maxCart c.chanceDraw c.addChance c.productId c.options
          c.qtyDraw c.minQ c.maxQ c.httpOk).2 rest

theorem addToCart_cart_length (a : Agent) (pid : Option String)
    (opts : List (String × String)) (qd : ℚ) (mq Mq : ℕ) (ok : Bool) :
    (addToCart a pid opts qd mq Mq ok).2.cart.length ≤ a.cart.length + 1 := by
  unfold addToCart
  rcases a.formKey with _ | fk <;> rcases pid with _ | p <;> simp
  split <;> simp

theorem guardedAddToCart_step (a : Agent) (maxCart : ℕ) (cd ac : ℚ)
    (pid : Option String) (opts : List (String × String)) (qd : ℚ) (mq Mq : ℕ)
    (ok : Bool) (h : a.cart.length ≤ maxCart) :
    (guardedAddToCart a maxCart cd ac pid opts qd mq Mq ok).2.cart.length ≤ maxCart := by
  unfold guardedAddToCart
  split
  case isTrue hc =>
    have h1 := addToCart_cart_length a pid opts qd mq Mq ok
    have h2 := hc.2.2
    omega
  case isFalse _ => exact h

theorem runGuardedAdds_bound (maxCart : ℕ) (calls : List AddCall) :
    ∀ a : Agent, a.cart.length ≤ maxCart →
      (runGuardedAdds maxCart a calls).cart.length ≤ maxCart := by
  induction calls with
  | nil => intro a h; exact h
  | cons c rest ih =>
      intro a h
      exact ih _ (guardedAddToCart_step a maxCart c.chanceDraw c.addChance c.productId
        c.options c.qtyDraw c.minQ c.maxQ c.httpOk h)

/-- C1 amended: `addToCart` itself checks only the form token and the product
id; the cart bound is enforced at the call sites.  Every add-to-cart attempt
in `realUserBrowsingSession` is gated by `cart.length < MAX_PRODUCTS_IN_CART`:
with the cart already at the bound the guarded attempt returns `false` and
leaves the agent unchanged, and along every guarded attempt — and every
sequence of guarded attempts — `cart.length ≤ MAX_PRODUCTS_IN_CART` is
preserved. -/
theorem guardedAddToCart_preserves_cart_bound (a : Agent) (maxCart : ℕ) (cd ac : ℚ)
    (pid : Option String) (opts : List (String × String)) (qd : ℚ) (mq Mq : ℕ)
    (ok : Bool) (calls : List AddCall) (h : a.cart.length ≤ maxCart) :
    (a.cart.length = maxCart →
      guardedAddToCart a maxCart cd ac pid opts qd mq Mq ok = (false, a)) ∧
    (guardedAddToCart a maxCart cd ac pid opts qd mq Mq ok).2.cart.length ≤ maxCart ∧
    (runGuardedAdds maxCart a calls).cart.length ≤ maxCart := by
  refine ⟨?_, guardedAddToCart_step a maxCart cd ac pid opts qd mq Mq ok h,
    runGuardedAdds_bound maxCart calls a h⟩
  intro hfull
  unfold guardedAddToCart
  rw [if_neg]
  intro hc
  omega

theorem guardedAddToCart_preserves_cart_bound_witness :
    fullCartAgent.cart.length ≤ MAX_PRODUCTS_IN_CART ∧
    (fullCartAgent.cart.length = MAX_PRODUCTS_IN_CART →
      guardedAddToCart fullCartAgent MAX_PRODUCTS_IN_CART 0 1 (some "99") [] 0 1 3 true =
        (false, fullCartAgent)) ∧
    (guardedAddToCart fullCartAgent MAX_PRODUCTS_IN_CART 0 1 (some "99") [] 0 1 3
        true).2.cart.length ≤ MAX_PRODUCTS_IN_CART ∧
    (runGuardedAdds MAX_PRODUCTS_IN_CART fullCartAgent
        [⟨0, 1, some "7", [], 0, 1, 3, true⟩]).cart.length ≤ MAX_PRODUCTS_IN_CART :=
  ⟨by decide,
    guardedAddToCart_preserves_cart_bound fullCartAgent MAX_PRODUCTS_IN_CART 0 1
      (some "99") [] 0 1 3 true [⟨0, 1, some "7", [], 0, 1, 3, true⟩] (by decide)⟩

/-! ## Discovery setup and static fallback (`setup`, `generateFallbackUrls`) -/

/-- Built-in default product paths (`realUrls.realProductUrls`). -/
def REAL_PRODUCT_URLS : List String :=
  ["radiant-tee.html", "breathe-easy-tank.html", "argus-all-weather-tank.html",
   "hero-hoodie.html", "fusion-backpack.html", "push-it-messenger-bag.html",
   "sprite-yoga-companion-kit.html", "affirm-water-bottle.html",
   "quest-lumaflex-tone-band.html", "fitbit-charge-3.html"]

/-- Built-in default category slugs (`realUrls.fallbackCategorySlugs`). -/
def FALLBACK_CATEGORY_SLUGS : List String :=
  ["category-4", "category-5", "gear", "training", "collections/yoga-new"]

/-- Built-in default search terms (`realUrls.fallbackSearchTerms`). -/
def FALLBACK_SEARCH_TERMS : List String :=
  ["shirt", "pants", "shoes", "bag", "watch", "dress", "jacket", "hat", "belt", "socks"]

/-- `limit(arr, max)`: `max > 0 ? arr.slice(0, max) : arr`. -/
def limit (arr : List String) (maxN : ℕ) : List String :=
  if 0 < maxN then arr.take maxN else arr

/-- The `{products, categories, searchTerms}` object returned by `setup`,
`crawlPage` and `generateFallbackUrls`. -/
structure SeedData where
  products : List String
  categories : List String
  searchTerms : List String
deriving DecidableEq, Repr

/-- `generateFallbackUrls()`: the static seed set, built from the default
lists, each entry resolved against the base URL and the lists truncated to
the configured caps. -/
def generateFallbackUrls (baseUrl : String) (maxP maxC maxS : ℕ) : SeedData :=
  { products := limit (REAL_PRODUCT_URLS.map fun p => baseUrl ++ "/" ++ p) maxP,
    categories := limit (FALLBACK_CATEGORY_SLUGS.map fun s => baseUrl ++ "/" ++ s ++ ".html") maxC,
    searchTerms := limit FALLBACK_SEARCH_TERMS maxS }

/-- One step of JS `[...new Set(arr)]`: keep the element when unseen. -/
def dedupStep (acc : List String) (x : String) : List String :=
  if x ∈ acc then acc else acc ++ [x]

/-- JS `[...new Set(arr)]`: deduplicate keeping first occurrences. -/
def uniqFirst (l : List String) : List String := l.foldl dedupStep []

/-- Final stage of `setup()`: fall back to the static set when the harvested
product or category set is empty, else truncate each harvested list to its
cap, substituting the fallback search terms for an empty harvest. -/
def setupFinish (baseUrl : String) (maxP maxC maxS : ℕ)
    (uniqueP uniqueC uniqueS : List String) : SeedData :=
  if uniqueP.length = 0 ∨ uniqueC.length = 0 then
    generateFallbackUrls baseUrl maxP maxC maxS
  else
    { products := limit uniqueP maxP,
      categories := limit uniqueC maxC,
      searchTerms := limit (if 0 < uniqueS.length then uniqueS else FALLBACK_SEARCH_TERMS) maxS }

/-- `setup()`: fall back to the static seed set when URL discovery is
disabled; otherwise merge the homepage crawl with the optional one-hop deep
crawl of the first few discovered categories (which contributes products and
search terms only), deduplicate, and finish via `setupFinish`.  The
network-dependent `crawlPage` results enter as oracles. -/
def setupDiscovery (enableDiscovery enableDeep : Bool) (baseUrl : String)
    (maxP maxC maxS : ℕ) (homepage : SeedData) (crawlCat : String → SeedData) : SeedData :=
  if enableDiscovery = false then generateFallbackUrls baseUrl maxP maxC maxS
  else
    let deepTargets : List String :=
      if enableDeep = true ∧ 0 < homepage.categories.length then
        homepage.categories.take (min 5 homepage.categories.length)
      else []
    let allP := deepTargets.foldl (fun acc u => acc ++ (crawlCat u).products) homepage.products
    let allS :=
      deepTargets.foldl (fun acc u => acc ++ (crawlCat u).searchTerms) homepage.searchTerms
    setupFinish baseUrl maxP maxC maxS (uniqFirst allP) (uniqFirst homepage.categories)
      (uniqFirst allS)

theorem limit_ne_nil {l : List String} (m : ℕ) (hl : l ≠ []) : limit l m ≠ [] := by
  unfold limit
  split
  case isTrue hm =>
    cases l with
    | nil => exact absurd rfl hl
    | cons x xs =>
        cases m with
        | zero => omega
        | succ k => simp [List.take]
  case isFalse _ => exact hl

theorem generateFallbackUrls_nonempty (baseUrl : String) (maxP maxC maxS : ℕ) :
    (generateFallbackUrls baseUrl maxP maxC maxS).products ≠ [] ∧
    (generateFallbackUrls baseUrl maxP maxC maxS).categories ≠ [] := by
  constructor
  · exact limit_ne_nil maxP (by simp [REAL_PRODUCT_URLS])
  · exact limit_ne_nil maxC (by simp [FALLBACK_CATEGORY_SLUGS])

theorem length_pos_ne_nil {l : List String} (h : l.length ≠ 0) : l ≠ [] := by
  cases l with
  | nil => exact absurd rfl h
  | cons x xs => exact List.cons_ne_nil x xs

theorem setupFinish_nonempty (baseUrl : String) (maxP maxC maxS : ℕ)
    (uniqueP uniqueC uniqueS : List String) :
    (setupFinish baseUrl maxP maxC maxS uniqueP uniqueC uniqueS).products ≠ [] ∧
    (setupFinish baseUrl maxP maxC maxS uniqueP uniqueC uniqueS).categories ≠ [] := by
  unfold setupFinish
  split
  case isTrue _ => exact generateFallbackUrls_nonempty baseUrl maxP maxC maxS
  case isFalse hne =>
    rw [not_or] at hne
    exact ⟨limit_ne_nil maxP (length_pos_ne_nil hne.1),
      limit_ne_nil maxC (length_pos_ne_nil hne.2)⟩

/-- C7: under the built-in default fallback lists and positive size caps the
discovery setup always returns non-empty `products` and `categories` lists,
whatever the crawl outcomes: when discovery is disabled, when every crawl
yields nothing, or when the harvested product or category set is empty, the
result is the static fallback set; otherwise the non-empty harvested sets
survive the truncation. -/
theorem setupDiscovery_fallback_total (enableDiscovery enableDeep : Bool)
    (baseUrl : String) (maxP maxC maxS : ℕ) (homepage : SeedData)
    (crawlCat : String → SeedData) (hP : 0 < maxP) (hC : 0 < maxC) :
    (setupDiscovery enableDiscovery enableDeep baseUrl maxP maxC maxS homepage
        crawlCat).products ≠ [] ∧
    (setupDiscovery enableDiscovery enableDeep baseUrl maxP maxC maxS homepage
        crawlCat).categories ≠ [] := by
  unfold setupDiscovery
  split
  case isTrue _ => exact generateFallbackUrls_nonempty baseUrl maxP maxC maxS
  case isFalse _ => exact setupFinish_nonempty baseUrl maxP maxC maxS _ _ _

/-- An all-empty crawl outcome, for the C7 witness. -/
def emptyCrawl : SeedData := { products := [], categories := [], searchTerms := [] }

theorem setupDiscovery_fallback_total_witness :
    0 < 500 ∧ 0 < 50 ∧
    ((setupDiscovery true false "https://shop.example" 500 50 20 emptyCrawl
        (fun _ => emptyCrawl)).products ≠ [] ∧
      (setupDiscovery true false "https://shop.example" 500 50 20 emptyCrawl
        (fun _ => emptyCrawl)).categories ≠ []) :=
  ⟨by decide, by decide,
    setupDiscovery_fallback_total true false "https://shop.example" 500 50 20 emptyCrawl
      (fun _ => emptyCrawl) (by decide) (by decide)⟩

/-! ## Browsing loop of `realUserBrowsingSession` -/

/-- The step budget drawn once per iteration:
`Math.floor(Math.random() * (MAX_BROWSING_ACTIONS - MIN_BROWSING_ACTIONS + 1))
+ MIN_BROWSING_ACTIONS`. -/
def drawMaxActions (minA maxA : ℕ) (r : ℚ) : ℕ := randIndex r (maxA - minA + 1) + minA

/-- The `while (browsingActions < maxBrowsingActions)` loop of
`realUserBrowsingSession`, reduced to its counter discipline: at iteration
`i`, `urlFound i` tells whether `getNextUrl` or the SeedData fallback
produced a URL (when neither does, the loop breaks), and `impulse i` tells
whether the distraction branch ran its extra impulse view, which counts the
action counter a second time.  The value is the number of loop iterations
executed. -/
def browsingIters (urlFound impulse : ℕ → Bool) (maxA : ℕ) (i count : ℕ) : ℕ :=
  if h : count < maxA then
    if urlFound i then
      if impulse i then 1 + browsingIters urlFound impulse maxA (i + 1) (count + 2)
      else 1 + browsingIters urlFound impulse maxA (i + 1) (count + 1)
    else 0
  else 0
termination_by maxA - count
decreasing_by
  · omega
  · omega

theorem browsingIters_le (urlFound impulse : ℕ → Bool) (maxA : ℕ) :
    ∀ fuel i count, maxA - count ≤ fuel →
      browsingIters urlFound impulse maxA i count ≤ maxA - count := by
  intro fuel
  induction fuel with
  | zero =>
      intro i count h
      unfold browsingIters
      rw [dif_neg (by omega)]
      omega
  | succ n ih =>
      intro i count h
      unfold browsingIters
      split
      case isTrue hc =>
        split
        case isTrue _ =>
          split
          case isTrue _ =>
            have := ih (i + 1) (count + 2) (by omega)
            omega
          case isFalse _ =>
            have := ih (i + 1) (count + 1) (by omega)
            omega
        case isFalse _ => omega
      case isFalse _ => omega

/-- C9: the browsing step budget is drawn once and lies between the
configured minimum and maximum number of browsing actions, and the loop —
every iteration of which either finds a URL and counts at least one action
or breaks — executes at most the drawn number of iterations, whatever the
URL supply and distraction pattern. -/
theorem browsing_loop_bounded (minA maxA : ℕ) (r : ℚ)
    (h0 : 0 ≤ r) (h1 : r < 1) (hmm : minA ≤ maxA) :
    (minA ≤ drawMaxActions minA maxA r ∧ drawMaxActions minA maxA r ≤ maxA) ∧
    ∀ (urlFound impulse : ℕ → Bool) (i : ℕ),
      browsingIters urlFound impulse (drawMaxActions minA maxA r) i 0 ≤
        drawMaxActions minA maxA r := by
  constructor
  · constructor
    · unfold drawMaxActions
      omega
    · unfold drawMaxActions
      have := randIndex_lt r (maxA - minA + 1) h0 h1 (by omega)
      omega
  · intro urlFound impulse i
    have := browsingIters_le urlFound impulse (drawMaxActions minA maxA r)
      (drawMaxActions minA maxA r) i 0 (by omega)
    omega

/-- Constant URL supply for the C9 witness. -/
def alwaysUrl : ℕ → Bool := fun _ => true

/-- No distraction impulses, for the C9 witness. -/
def neverImpulse : ℕ → Bool := fun _ => false

theorem browsing_loop_bounded_witness :
    ((0 : ℚ) ≤ 0 ∧ (0 : ℚ) < 1 ∧ 5 ≤ 12) ∧
    browsingIters alwaysUrl neverImpulse (drawMaxActions 5 12 0) 0 0 ≤
      drawMaxActions 5 12 0 :=
  ⟨⟨by decide, by decide, by decide⟩,
    (browsing_loop_bounded 5 12 0 (by decide) (by decide) (by decide)).2
      alwaysUrl neverImpulse 0⟩
